import Mathlib

/-!
# Verification of the Nearby-Hotels widget (`script.js`)

Shallow embedding of the single source file `script.js`.  JSON values coming
from the Overpass API are modelled with `Option` fields (a missing or `null`
field is `none`); JavaScript truthiness on numbers (`0` is falsy) and strings
(`""` is falsy) is modelled explicitly.  Real-number arithmetic stands in for
IEEE doubles, and coordinates carried by JSON are rationals (JSON numerals).
-/

namespace NearbyHotels

/-- One `center` sub-object of an Overpass element (`el.center`), whose own
`lat`/`lon` fields may be absent. -/
structure Center where
  lat : Option ℚ
  lon : Option ℚ
deriving DecidableEq

/-- The `tags` sub-object of an Overpass element; only the `name` tag is read
by the script (`el.tags.name`). -/
structure Tags where
  name : Option String
deriving DecidableEq

/-- One element of `data.elements` in the Overpass JSON response: a `type`
string, optional own coordinates, an optional `center` object and optional
`tags`. -/
structure Element where
  type : String
  lat : Option ℚ
  lon : Option ℚ
  center : Option Center
  tags : Option Tags
deriving DecidableEq

/-- The parsed JSON body (`data`); its `elements` field may be absent, in
which case the loop iterates over `data.elements || []`. -/
structure OverpassData where
  elements : Option (List Element)
deriving DecidableEq

/-- The network response as seen by `fetchHotels`: the HTTP success flag
`res.ok` and the result of `res.json()` — `none` when the body is not valid
JSON, in which case `res.json()` throws and control jumps to the `catch`. -/
structure Response where
  ok : Bool
  json : Option OverpassData
deriving DecidableEq

/-- JavaScript truthiness of an optional number: absent (`undefined`/`null`)
and `0` are falsy, every other number is truthy. -/
def truthyNum : Option ℚ → Bool
  | none => false
  | some v => v != 0

/-- Coordinate resolution of `fetchHotels` (script.js lines 81–92): a `node`
with truthy `lat` and `lon` uses its own coordinates; otherwise, when a
`center` object with truthy `lat` and `lon` is present it is used; otherwise
the element is skipped (`continue`). -/
def resolveCoord (el : Element) : Option (ℚ × ℚ) :=
  if el.type == "node" && truthyNum el.lat && truthyNum el.lon then
    some (el.lat.getD 0, el.lon.getD 0)
  else
    match el.center with
    | some c =>
        if truthyNum c.lat && truthyNum c.lon then some (c.lat.getD 0, c.lon.getD 0)
        else none
    | none => none

/-- The placeholder display name used by the script. -/
def placeholderName : String := "Unnamed hotel (OpenStreetMap)"

/-- Name resolution of `fetchHotels` (script.js lines 94–97):
`el.tags && el.tags.name ? el.tags.name : "Unnamed hotel (OpenStreetMap)"`.
Note that an empty-string name tag is falsy in JavaScript and therefore also
falls back to the placeholder. -/
def resolveName (el : Element) : String :=
  match el.tags with
  | some t =>
      match t.name with
      | some s => if s == "" then placeholderName else s
      | none => placeholderName
  | none => placeholderName

/-- Number of elements of the response that resolve to a usable coordinate
(the ones the parse loop keeps). -/
def countResolvable (l : List Element) : ℕ :=
  (l.filter (fun el => (resolveCoord el).isSome)).length

/-- One entry of the `results` array built by `fetchHotels`: display name,
coordinates, and the computed distance.  The distance type is a parameter so
that the ranking pipeline can be stated both for the real-valued haversine
distance and for computable instantiations. -/
structure Hotel (β : Type) where
  name : String
  lat : ℚ
  lon : ℚ
  distanceKm : β
deriving DecidableEq

/-- The real-valued model of `Math.atan2 y x`. -/
noncomputable def atan2 (y x : ℝ) : ℝ :=
  if 0 < x then Real.arctan (y / x)
  else if x < 0 then
    (if 0 ≤ y then Real.arctan (y / x) + Real.pi else Real.arctan (y / x) - Real.pi)
  else if 0 < y then Real.pi / 2
  else if y < 0 then -(Real.pi / 2)
  else 0

/-- The intermediate value `a` of `distanceKm` (script.js lines 47–51). -/
noncomputable def haversineA (lat1 lon1 lat2 lon2 : ℝ) : ℝ :=
  Real.sin ((lat2 - lat1) * Real.pi / 180 / 2) ^ 2 +
    Real.cos (lat1 * Real.pi / 180) * Real.cos (lat2 * Real.pi / 180) *
      Real.sin ((lon2 - lon1) * Real.pi / 180 / 2) ^ 2

/-- `distanceKm` (script.js lines 43–54): haversine great-circle distance
with mean Earth radius `R = 6371` km, `c = 2·atan2(√a, √(1−a))`, result
`R·c`. -/
noncomputable def distanceKm (lat1 lon1 lat2 lon2 : ℝ) : ℝ :=
  6371 * (2 * atan2 (Real.sqrt (haversineA lat1 lon1 lat2 lon2))
    (Real.sqrt (1 - haversineA lat1 lon1 lat2 lon2)))

section Pipeline

variable {β : Type} [LinearOrder β]

/-- The parse loop of `fetchHotels` (script.js lines 79–107): each element
with a resolvable coordinate contributes one `Hotel` carrying its resolved
name, coordinates and computed distance; the others are skipped.  `d` is the
distance function with the user's position already applied. -/
def parseElements (d : ℚ → ℚ → β) (l : List Element) : List (Hotel β) :=
  l.filterMap fun el =>
    (resolveCoord el).map fun p =>
      { name := resolveName el, lat := p.1, lon := p.2, distanceKm := d p.1 p.2 }

/-- The comparison used by `results.sort((a, b) => a.distanceKm - b.distanceKm)`:
order hotels by their computed distance. -/
def byDist : Hotel β → Hotel β → Prop := fun a b => a.distanceKm ≤ b.distanceKm

instance : DecidableRel (byDist (β := β)) := fun a b =>
  inferInstanceAs (Decidable (a.distanceKm ≤ b.distanceKm))

instance : IsTotal (Hotel β) byDist := ⟨fun a b => le_total a.distanceKm b.distanceKm⟩

instance : IsTrans (Hotel β) byDist := ⟨fun _ _ _ h h' => le_trans h h'⟩

/-- The same distance comparison on index-decorated hotels; the index plays
no role in the comparison.  Used to state stability of the sort. -/
def byDistIdx : ℕ × Hotel β → ℕ × Hotel β → Prop :=
  fun a b => a.2.distanceKm ≤ b.2.distanceKm

instance : DecidableRel (byDistIdx (β := β)) := fun a b =>
  inferInstanceAs (Decidable (a.2.distanceKm ≤ b.2.distanceKm))

/-- Stability predicate on index-decorated hotels: whenever two entries have
equal distance, their original positions appear in increasing order. -/
def stableBefore : ℕ × Hotel β → ℕ × Hotel β → Prop :=
  fun a b => a.2.distanceKm = b.2.distanceKm → a.1 < b.1

/-- Ranking step of `fetchHotels` (script.js lines 109–117): when the parsed
list is empty the list view is cleared (empty output); otherwise the results
are sorted ascending by distance (a stable sort, per the ECMAScript
`Array.prototype.sort` contract) and capped with `slice(0, 6)`. -/
def rankResults (results : List (Hotel β)) : List (Hotel β) :=
  if results.length = 0 then []
  else (List.insertionSort byDist results).take 6

/-- The pure part of `fetchHotels` on a successfully parsed element list:
parse, sort by distance, cap to 6. -/
def fetchHotelsRanked (d : ℚ → ℚ → β) (l : List Element) : List (Hotel β) :=
  rankResults (parseElements d l)

/-- Observable outcome of one `fetchHotels` run. -/
inductive FetchOutcome (β : Type) where
  | networkError
  | noResults
  | found (top : List (Hotel β)) (total : ℕ)
deriving DecidableEq

/-- `fetchHotels` as a function of the network result (script.js lines
74–129).  `none` models a rejected `fetch` (transport failure); a non-ok
status throws (`if (!res.ok) throw …`); a body that is not valid JSON makes
`res.json()` throw.  All three land in the `catch` block and produce the
network-error outcome.  Otherwise the elements are parsed; an empty result
list yields the no-results outcome, else the sorted, capped list is
rendered. -/
def fetchOutcome (d : ℚ → ℚ → β) : Option Response → FetchOutcome β
  | none => FetchOutcome.networkError
  | some res =>
      if res.ok = false then FetchOutcome.networkError
      else
        match res.json with
        | none => FetchOutcome.networkError
        | some data =>
            let results := parseElements d (data.elements.getD [])
            if results.length = 0 then FetchOutcome.noResults
            else FetchOutcome.found ((List.insertionSort byDist results).take 6) results.length

/-- The status text set by `fetchHotels` for each outcome. -/
def outcomeStatus : FetchOutcome β → String
  | FetchOutcome.networkError => "Error contacting map server. Check internet and try again."
  | FetchOutcome.noResults => "No hotels found nearby. Try moving outside / closer to main road."
  | FetchOutcome.found top total =>
      "Found " ++ toString total ++ " places, showing closest " ++ toString top.length ++ "."

/-- Contents of the textual list view (`hotelsList`) after one `fetchHotels`
run: cleared on the error and no-results paths, otherwise the capped ranked
list rendered by `renderHotels`. -/
def outcomeList : FetchOutcome β → List (Hotel β)
  | FetchOutcome.found top _ => top
  | _ => []

/-- The name line of each card produced by `renderHotels` (script.js lines
132–157): one card per hotel, in order, showing `hotel.name`.  (The distance
line's `toFixed(2)` formatting of an IEEE double is outside this model.) -/
def renderHotels (l : List (Hotel β)) : List String :=
  l.map Hotel.name

end Pipeline

/-- The distance function actually used by `fetchHotels`: the haversine
`distanceKm` with the user's position as first point, applied to the
candidate's JSON (rational) coordinates read as reals. -/
noncomputable def realDist (lat lon : ℝ) : ℚ → ℚ → ℝ :=
  fun a b => distanceKm lat lon ((a : ℝ)) ((b : ℝ))

/-- The ranked output of a search for a user at `(lat, lon)` over a parsed
element list, using the real haversine distance. -/
noncomputable def fetchHotelsReal (lat lon : ℝ) (l : List Element) : List (Hotel ℝ) :=
  fetchHotelsRanked (realDist lat lon) l

/-- The outcome of one `fetchHotels` run for a user at `(lat, lon)`, using
the real haversine distance. -/
noncomputable def fetchOutcomeReal (lat lon : ℝ) (net : Option Response) : FetchOutcome ℝ :=
  fetchOutcome (realDist lat lon) net

/-! ## UI state machine (`getLocationAndSearch`, script.js lines 171–201)

The implicit state machine
`Idle → AcquiringLocation → Searching → {Rendered | NoResults | LocationError
| NetworkError}` is modelled as the sequence of user-visible UI snapshots of
one search: status text, whether the search button is disabled, and whether
the Overpass query has been issued so far. -/

/-- Phases of the implicit search state machine. -/
inductive Phase where
  | idle
  | acquiringLocation
  | searching
  | rendered
  | noResults
  | locationError
  | networkError
deriving DecidableEq

/-- `true` exactly on the four terminal phases of one search. -/
def Phase.isTerminal : Phase → Bool
  | Phase.rendered => true
  | Phase.noResults => true
  | Phase.locationError => true
  | Phase.networkError => true
  | _ => false

/-- One user-visible UI snapshot. -/
structure UIState where
  phase : Phase
  status : String
  btnDisabled : Bool
  queryIssued : Bool
deriving DecidableEq

/-- Result of the one-shot geolocation request: the capability is missing
(`!navigator.geolocation`), the error callback fired (denied / timeout /
unavailable), or the success callback delivered a position. -/
inductive GeoResult where
  | unsupported
  | denied
  | success (lat lon : ℚ)
deriving DecidableEq

/-- Classification of the fetch outcome used by the UI trace.  The
constructor and both counts of `fetchOutcome` do not depend on the distance
function, so the computable instantiation `d = 0` over `ℚ` is used. -/
def classifyNet (net : Option Response) : FetchOutcome ℚ :=
  fetchOutcome (fun _ _ => 0) net

/-- Terminal phase corresponding to a fetch outcome. -/
def outcomePhase {β : Type} : FetchOutcome β → Phase
  | FetchOutcome.networkError => Phase.networkError
  | FetchOutcome.noResults => Phase.noResults
  | FetchOutcome.found _ _ => Phase.rendered

/-- The snapshot before any search: initial status, button enabled. -/
def idleState : UIState :=
  { phase := Phase.idle, status := "Waiting for search…",
    btnDisabled := false, queryIssued := false }

/-- UI snapshots of one button press (`getLocationAndSearch`):
* no geolocation capability → early return, the button is never disabled;
* then `findBtn.disabled = true` and the "Getting your location…" status;
* error callback → denial status and `findBtn.disabled = false`, no fetch;
* success callback → `fetchHotels` sets the searching status and issues the
  query, and its `finally` re-enables the button after the terminal status
  is set. -/
def searchTrace (geo : GeoResult) (net : Option Response) : List UIState :=
  match geo with
  | GeoResult.unsupported =>
      [idleState,
       { phase := Phase.locationError, status := "Geolocation not supported on this device.",
         btnDisabled := false, queryIssued := false }]
  | GeoResult.denied =>
      [idleState,
       { phase := Phase.acquiringLocation, status := "Getting your location…",
         btnDisabled := true, queryIssued := false },
       { phase := Phase.locationError,
         status := "Location permission denied or unavailable. Please enable location and try again.",
         btnDisabled := false, queryIssued := false }]
  | GeoResult.success _ _ =>
      [idleState,
       { phase := Phase.acquiringLocation, status := "Getting your location…",
         btnDisabled := true, queryIssued := false },
       { phase := Phase.searching, status := "Searching for hotels nearby…",
         btnDisabled := true, queryIssued := true },
       { phase := outcomePhase (classifyNet net), status := outcomeStatus (classifyNet net),
         btnDisabled := false, queryIssued := true }]

/-! ## Map presenter state (`initMap`, `plotHotelsOnMap`) -/

/-- Module-level map state: whether the Leaflet map exists, the user marker's
position, and the contents of the result-marker layer (`none` while the
layer has not been created yet; marker positions once it exists). -/
structure MapState where
  mapInit : Bool
  userMarker : Option (ℚ × ℚ)
  hotelsLayer : Option (List (ℚ × ℚ))
deriving DecidableEq

/-- The state before the first search: nothing created yet. -/
def initialMapState : MapState :=
  { mapInit := false, userMarker := none, hotelsLayer := none }

/-- `initMap` (script.js lines 18–41): create or recenter the map, create or
move the user marker, and clear the result layer when it exists or create it
empty otherwise — in both branches the layer ends up empty. -/
def initMap (lat lon : ℚ) (s : MapState) : MapState :=
  { mapInit := true
    userMarker := some (lat, lon)
    hotelsLayer :=
      match s.hotelsLayer with
      | some _ => some []
      | none => some [] }

/-- `plotHotelsOnMap` (script.js lines 159–169): no-op when the layer does
not exist; otherwise clear it and add one marker per hotel. -/
def plotHotelsOnMap {β : Type} (l : List (Hotel β)) (s : MapState) : MapState :=
  match s.hotelsLayer with
  | none => s
  | some _ => { s with hotelsLayer := some (l.map fun h => (h.lat, h.lon)) }

/-- Effect of one button press on the map state: the geolocation error paths
never touch the map; the success callback runs `initMap` (clearing the
result layer) before `fetchHotels`, and only the found outcome plots
markers. -/
noncomputable def runSearchMap (geo : GeoResult) (net : Option Response) (s : MapState) :
    MapState :=
  match geo with
  | GeoResult.unsupported => s
  | GeoResult.denied => s
  | GeoResult.success lat lon =>
      let t := initMap lat lon s
      match fetchOutcomeReal ((lat : ℝ)) ((lon : ℝ)) net with
      | FetchOutcome.found top _ => plotHotelsOnMap top t
      | _ => t

/-! ## Supporting lemmas -/

/-- The parse loop keeps exactly the elements with a resolvable coordinate. -/
theorem length_parseElements {β : Type} [LinearOrder β] (d : ℚ → ℚ → β) (l : List Element) :
    (parseElements d l).length = countResolvable l := by
  induction l with
  | nil => rfl
  | cons x xs ih =>
      unfold parseElements countResolvable at *
      cases h : resolveCoord x <;>
        simp [List.filterMap_cons, List.filter_cons, h, ih]

/-- `rankResults` is `take 6` of the sorted list, the empty case included. -/
theorem rankResults_eq_take_sort {β : Type} [LinearOrder β] (l : List (Hotel β)) :
    rankResults l = (List.insertionSort byDist l).take 6 := by
  by_cases h : l.length = 0
  · have hnil : l = [] := List.length_eq_zero.mp h
    subst hnil
    simp [rankResults]
  · simp [rankResults, h]

/-- An element without a resolvable coordinate contributes nothing to the
parse result. -/
theorem parseElements_skip {β : Type} [LinearOrder β] (d : ℚ → ℚ → β) (el : Element)
    (h : resolveCoord el = none) (l1 l2 : List Element) :
    parseElements d (l1 ++ el :: l2) = parseElements d (l1 ++ l2) := by
  unfold parseElements
  rw [List.filterMap_append, List.filterMap_append,
    List.filterMap_cons_none (by rw [h]; rfl)]

/-- Inserting into a list that is stable with respect to the inserted
element preserves stability: `orderedInsert` places `x` behind every `y`
that compares `≤ x` and in front of the strictly greater ones. -/
theorem pairwise_stable_orderedInsert {β : Type} [LinearOrder β] (x : ℕ × Hotel β)
    (s : List (ℕ × Hotel β)) (hs : s.Pairwise stableBefore)
    (hx : ∀ y ∈ s, stableBefore x y) :
    (List.orderedInsert byDistIdx x s).Pairwise stableBefore := by
  induction s with
  | nil => simp
  | cons y ys ih =>
      rcases List.pairwise_cons.mp hs with ⟨hy, hys⟩
      by_cases h : byDistIdx x y
      · rw [List.orderedInsert, if_pos h]
        exact List.Pairwise.cons hx hs
      · rw [List.orderedInsert, if_neg h]
        refine List.Pairwise.cons ?_ (ih hys fun z hz => hx z (List.mem_cons_of_mem _ hz))
        intro z hz
        rcases (List.mem_orderedInsert byDistIdx).mp hz with rfl | hzys
        · intro heq
          exact absurd heq (ne_of_lt (lt_of_not_le h))
        · exact hy z hzys

/-- Insertion sort by distance preserves the stability invariant. -/
theorem pairwise_stable_insertionSort {β : Type} [LinearOrder β] (l : List (ℕ × Hotel β))
    (hl : l.Pairwise stableBefore) :
    (List.insertionSort byDistIdx l).Pairwise stableBefore := by
  induction l with
  | nil => simp
  | cons x xs ih =>
      rcases List.pairwise_cons.mp hl with ⟨hx, hxs⟩
      rw [List.insertionSort]
      exact pairwise_stable_orderedInsert x _ (ih hxs)
        fun y hy => hx y ((List.mem_insertionSort byDistIdx).mp hy)

/-- The indices produced by `enumFrom` are strictly increasing. -/
theorem pairwise_fst_lt_enumFrom {α : Type} (n : ℕ) (l : List α) :
    (l.enumFrom n).Pairwise (fun p q => p.1 < q.1) := by
  induction l generalizing n with
  | nil => simp
  | cons x xs ih =>
      rw [List.enumFrom_cons]
      refine List.Pairwise.cons ?_ (ih (n + 1))
      intro q hq
      have hle : n + 1 ≤ q.1 := List.le_fst_of_mem_enumFrom hq
      omega

/-- A freshly enumerated list satisfies the stability invariant. -/
theorem pairwise_stable_enum {β : Type} [LinearOrder β] (l : List (Hotel β)) :
    l.enum.Pairwise stableBefore := by
  exact (pairwise_fst_lt_enumFrom 0 l).imp fun h => fun _ => h

/-- Sorting the index-decorated list and dropping the indices is the sort of
the plain list: the decoration is invisible to the comparison. -/
theorem map_snd_insertionSort_enum {β : Type} [LinearOrder β] (l : List (Hotel β)) :
    (List.insertionSort byDistIdx l.enum).map Prod.snd = List.insertionSort byDist l := by
  have h := List.map_insertionSort byDistIdx byDist Prod.snd l.enum
    (fun a _ b _ => Iff.rfl)
  rw [h, show l.enum.map Prod.snd = l from List.enumFrom_map_snd 0 l]

/-- Every hotel of the ranked output originates from an element of the input
list, and carries that element's resolved name. -/
theorem mem_ranked_name {β : Type} [LinearOrder β] (d : ℚ → ℚ → β) (l : List Element)
    (h : Hotel β) (hm : h ∈ fetchHotelsRanked d l) : ∃ el ∈ l, h.name = resolveName el := by
  unfold fetchHotelsRanked at hm
  rw [rankResults_eq_take_sort] at hm
  have h1 : h ∈ List.insertionSort byDist (parseElements d l) :=
    (List.take_sublist 6 _).subset hm
  have h2 : h ∈ parseElements d l := (List.mem_insertionSort byDist).mp h1
  unfold parseElements at h2
  rcases List.mem_filterMap.mp h2 with ⟨el, hel, hmap⟩
  refine ⟨el, hel, ?_⟩
  cases hc : resolveCoord el with
  | none => rw [hc] at hmap; cases hmap
  | some p =>
      rw [hc] at hmap
      cases hmap
      rfl

/-! ## Claims -/

/-- **C5.** For all pairs of coordinates, the haversine distance function of
`script.js` is symmetric, `distanceKm A B = distanceKm B A`, and the
distance from any coordinate to itself is `0`. -/
theorem distanceKm_symm_and_self_zero :
    (∀ a b c d : ℝ, distanceKm a b c d = distanceKm c d a b)
    ∧ (∀ a b : ℝ, distanceKm a b a b = 0) := by
  constructor
  · intro a b c d
    have h : haversineA a b c d = haversineA c d a b := by
      unfold haversineA
      have h1 : Real.sin ((a - c) * Real.pi / 180 / 2) ^ 2
          = Real.sin ((c - a) * Real.pi / 180 / 2) ^ 2 := by
        rw [show (a - c) * Real.pi / 180 / 2 = -((c - a) * Real.pi / 180 / 2) by ring,
          Real.sin_neg, neg_sq]
      have h2 : Real.sin ((b - d) * Real.pi / 180 / 2) ^ 2
          = Real.sin ((d - b) * Real.pi / 180 / 2) ^ 2 := by
        rw [show (b - d) * Real.pi / 180 / 2 = -((d - b) * Real.pi / 180 / 2) by ring,
          Real.sin_neg, neg_sq]
      rw [h1, h2]
      ring
    unfold distanceKm
    rw [h]
  · intro a b
    have h : haversineA a b a b = 0 := by
      unfold haversineA
      simp
    unfold distanceKm
    rw [h, Real.sqrt_zero, sub_zero, Real.sqrt_one]
    unfold atan2
    rw [if_pos (by norm_num : (0 : ℝ) < 1), zero_div, Real.arctan_zero]
    ring

/-- **C2.** Coordinate-resolution policy: a `node` whose own `lat`/`lon` are
usable (present and nonzero, per the code's truthiness test) uses them; a
non-node (area) feature with a usable precomputed `center` uses it; and an
element without a resolvable coordinate is skipped silently — the ranked
output over any list containing it equals the output without it, so it
never appears in the ranked output. -/
theorem coordinate_resolution_policy (el : Element) :
    (el.type = "node" → truthyNum el.lat = true → truthyNum el.lon = true →
      resolveCoord el = some (el.lat.getD 0, el.lon.getD 0))
    ∧ (∀ c : Center, el.type ≠ "node" → el.center = some c →
        truthyNum c.lat = true → truthyNum c.lon = true →
        resolveCoord el = some (c.lat.getD 0, c.lon.getD 0))
    ∧ (resolveCoord el = none → ∀ (u v : ℝ) (l1 l2 : List Element),
        fetchHotelsReal u v (l1 ++ el :: l2) = fetchHotelsReal u v (l1 ++ l2)) := by
  refine ⟨?_, ?_, ?_⟩
  · intro ht hla hlo
    simp [resolveCoord, ht, hla, hlo]
  · intro c hn hc hla hlo
    have hcond : (el.type == "node" && truthyNum el.lat && truthyNum el.lon) = false := by
      simp [hn]
    simp [resolveCoord, hcond, hc, hla, hlo]
  · intro h u v l1 l2
    unfold fetchHotelsReal fetchHotelsRanked
    rw [parseElements_skip _ el h]

/-- Witness for C2: a node with usable own coordinates, an area with a
usable center, and an unresolvable element whose presence leaves the ranked
output unchanged. -/
theorem coordinate_resolution_policy_witness :
    resolveCoord ⟨"node", some 1, some 2, none, none⟩ = some (1, 2)
    ∧ resolveCoord ⟨"way", none, none, some ⟨some 3, some 4⟩, none⟩ = some (3, 4)
    ∧ fetchHotelsReal 0 0 [⟨"node", some 0, some 0, none, none⟩] = fetchHotelsReal 0 0 [] := by
  refine ⟨?_, ?_, ?_⟩
  · exact (coordinate_resolution_policy ⟨"node", some 1, some 2, none, none⟩).1
      rfl (by decide) (by decide)
  · exact (coordinate_resolution_policy ⟨"way", none, none, some ⟨some 3, some 4⟩, none⟩).2.1
      ⟨some 3, some 4⟩ (by decide) rfl (by decide) (by decide)
  · exact (coordinate_resolution_policy ⟨"node", some 0, some 0, none, none⟩).2.2
      (by decide) 0 0 [] []

/-- **C9.** A `node` element whose own latitude or longitude is absent or
zero falls through to the center branch: it resolves to the center
coordinates when both are present and nonzero, and is skipped entirely
otherwise (center absent, or a center coordinate absent or zero). -/
theorem node_zero_coordinate_fallthrough (el : Element) (_h1 : el.type = "node")
    (h2 : truthyNum el.lat = false ∨ truthyNum el.lon = false) :
    (∀ c : Center, el.center = some c → truthyNum c.lat = true → truthyNum c.lon = true →
      resolveCoord el = some (c.lat.getD 0, c.lon.getD 0))
    ∧ (el.center = none → resolveCoord el = none)
    ∧ (∀ c : Center, el.center = some c →
        (truthyNum c.lat = false ∨ truthyNum c.lon = false) → resolveCoord el = none) := by
  have hcond : (el.type == "node" && truthyNum el.lat && truthyNum el.lon) = false := by
    rcases h2 with h | h <;> simp [h]
  refine ⟨?_, ?_, ?_⟩
  · intro c hc hla hlo
    simp [resolveCoord, hcond, hc, hla, hlo]
  · intro hc
    simp [resolveCoord, hcond, hc]
  · intro c hc h
    rcases h with h | h <;> simp [resolveCoord, hcond, hc, h]

/-- Witness for C9: a node at latitude `0` resolves through its center when
one is present, and is skipped when it has no center. -/
theorem node_zero_coordinate_fallthrough_witness :
    resolveCoord ⟨"node", some 0, some 5, some ⟨some 3, some 4⟩, none⟩ = some (3, 4)
    ∧ resolveCoord ⟨"node", some 0, some 5, none, none⟩ = none := by
  constructor
  · exact (node_zero_coordinate_fallthrough ⟨"node", some 0, some 5, some ⟨some 3, some 4⟩, none⟩
      rfl (Or.inl (by decide))).1 ⟨some 3, some 4⟩ rfl (by decide) (by decide)
  · exact (node_zero_coordinate_fallthrough ⟨"node", some 0, some 5, none, none⟩
      rfl (Or.inl (by decide))).2.1 rfl

/-- **C1.** For every user position and parsed candidate list, the ranked
output of the search (sort then cap) is sorted non-decreasing by computed
distance; its length is `min 6 (number of candidates with a resolvable
coordinate)`; and ties keep the original order: the output is the projection
of the sorted index-decorated candidate list, in which any two entries of
equal distance keep strictly increasing original positions. -/
theorem ranked_output_sorted_stable_capped (u v : ℝ) (l : List Element) :
    (fetchHotelsReal u v l).Sorted byDist
    ∧ (fetchHotelsReal u v l).length = min 6 (countResolvable l)
    ∧ fetchHotelsReal u v l
        = ((List.insertionSort byDistIdx (parseElements (realDist u v) l).enum).take 6).map
            Prod.snd
    ∧ (List.insertionSort byDistIdx (parseElements (realDist u v) l).enum).Pairwise
        stableBefore := by
  have hrank : fetchHotelsReal u v l
      = (List.insertionSort byDist (parseElements (realDist u v) l)).take 6 := by
    unfold fetchHotelsReal fetchHotelsRanked
    exact rankResults_eq_take_sort _
  refine ⟨?_, ?_, ?_, ?_⟩
  · rw [hrank]
    exact List.Pairwise.sublist (List.take_sublist 6 _)
      (List.sorted_insertionSort byDist (parseElements (realDist u v) l))
  · rw [hrank, List.length_take, List.length_insertionSort, length_parseElements]
  · rw [hrank, ← map_snd_insertionSort_enum, List.map_take]
  · exact pairwise_stable_insertionSort _ (pairwise_stable_enum _)

/-- The scenario input of the spec: user at `(0, 0)`; point candidates at
`(0, 0)` named "A", at `(0, 1)` unnamed, and at `(1, 0)` named "C". -/
def scenarioElements : List Element :=
  [⟨"node", some 0, some 0, none, some ⟨some "A"⟩⟩,
   ⟨"node", some 0, some 1, none, none⟩,
   ⟨"node", some 1, some 0, none, some ⟨some "C"⟩⟩]

/-- **C3, counterexample.** On the scenario input the ranked output is not
the claimed three-entry list `[A, C, unnamed]` — it is empty, because every
one of the three candidates has a zero latitude or longitude, which the
parser's truthiness test treats as an unusable coordinate. -/
theorem scenario_ranked_output_counterexample :
    fetchHotelsReal 0 0 scenarioElements = []
    ∧ (fetchHotelsReal 0 0 scenarioElements).length ≠ 3
    ∧ (fetchHotelsReal 0 0 scenarioElements).map Hotel.name
        ≠ ["A", "C", "Unnamed hotel (OpenStreetMap)"] := by
  have h1 : resolveCoord ⟨"node", some 0, some 0, none, some ⟨some "A"⟩⟩ = none := by decide
  have h2 : resolveCoord ⟨"node", some 0, some 1, none, none⟩ = none := by decide
  have h3 : resolveCoord ⟨"node", some 1, some 0, none, some ⟨some "C"⟩⟩ = none := by decide
  have hout : fetchHotelsReal 0 0 scenarioElements = [] := by
    unfold fetchHotelsReal fetchHotelsRanked parseElements scenarioElements
    rw [List.filterMap_cons_none (by rw [h1]; rfl),
      List.filterMap_cons_none (by rw [h2]; rfl),
      List.filterMap_cons_none (by rw [h3]; rfl)]
    rfl
  refine ⟨hout, ?_, ?_⟩
  · rw [hout]
    decide
  · rw [hout]
    simp

/-- **C3, amended.** For the scenario input, all three candidates are
skipped (each has a zero coordinate component, falsy in JavaScript), so the
ranked output is empty and a response carrying these elements takes the
no-results path. -/
theorem scenario_ranked_output_amended :
    fetchHotelsReal 0 0 scenarioElements = []
    ∧ fetchOutcomeReal 0 0 (some ⟨true, some ⟨some scenarioElements⟩⟩)
        = FetchOutcome.noResults := by
  constructor
  · exact (scenario_ranked_output_counterexample).1
  · have hcnt : countResolvable scenarioElements = 0 := by decide
    have hlen : (parseElements (realDist 0 0) scenarioElements).length = 0 := by
      rw [length_parseElements]
      exact hcnt
    unfold fetchOutcomeReal fetchOutcome
    simp [hlen]

/-- **C4, counterexample.** An HTTP-success response whose body is not valid
JSON (`res.json()` throws, e.g. on an empty body) is *not* treated as zero
results: the thrown parse error lands in the same `catch` as network
failures, producing the network-error outcome. -/
theorem malformed_body_counterexample :
    fetchOutcomeReal 0 0 (some ⟨true, none⟩) = FetchOutcome.networkError
    ∧ fetchOutcomeReal 0 0 (some ⟨true, none⟩) ≠ FetchOutcome.noResults := by
  constructor
  · rfl
  · intro h
    rw [show fetchOutcomeReal 0 0 (some ⟨true, none⟩) = FetchOutcome.networkError from rfl] at h
    cases h

/-- **C4, amended.** If the request succeeds with an HTTP success status and
the body parses as JSON but yields no candidates (its element list is
absent, empty, or entirely unresolvable), the search treats it as zero
results — no-results status, cleared list view — not as a network error;
a body that fails JSON parsing instead follows the network-error path. -/
theorem empty_parse_zero_results (u v : ℝ) (r : Response) (j : OverpassData)
    (hok : r.ok = true) (hj : r.json = some j)
    (hcnt : countResolvable (j.elements.getD []) = 0) :
    fetchOutcomeReal u v (some r) = FetchOutcome.noResults
    ∧ outcomeStatus (fetchOutcomeReal u v (some r))
        = "No hotels found nearby. Try moving outside / closer to main road."
    ∧ outcomeList (fetchOutcomeReal u v (some r)) = [] := by
  have hlen : (parseElements (realDist u v) (j.elements.getD [])).length = 0 := by
    rw [length_parseElements]
    exact hcnt
  have hmain : fetchOutcomeReal u v (some r) = FetchOutcome.noResults := by
    unfold fetchOutcomeReal fetchOutcome
    simp [hok, hj, hlen]
  exact ⟨hmain, by rw [hmain]; rfl, by rw [hmain]; rfl⟩

/-- Witness for C4's amended claim: an ok response with an empty element
list yields the no-results outcome. -/
theorem empty_parse_zero_results_witness :
    fetchOutcomeReal 0 0 (some ⟨true, some ⟨some []⟩⟩) = FetchOutcome.noResults
    ∧ outcomeStatus (fetchOutcomeReal 0 0 (some ⟨true, some ⟨some []⟩⟩))
        = "No hotels found nearby. Try moving outside / closer to main road."
    ∧ outcomeList (fetchOutcomeReal 0 0 (some ⟨true, some ⟨some []⟩⟩)) = [] :=
  empty_parse_zero_results 0 0 ⟨true, some ⟨some []⟩⟩ ⟨some []⟩ rfl rfl (by decide)

/-- **C7.** If the network request fails (rejected fetch) or returns a
non-success HTTP status, the search terminates in the `catch` block without
crashing: the network-error status is shown and the list view is reset to
empty, discarding any partial data. -/
theorem network_failure_resets_view (u v : ℝ) (net : Option Response)
    (h : net = none ∨ ∃ r : Response, net = some r ∧ r.ok = false) :
    fetchOutcomeReal u v net = FetchOutcome.networkError
    ∧ outcomeStatus (fetchOutcomeReal u v net)
        = "Error contacting map server. Check internet and try again."
    ∧ outcomeList (fetchOutcomeReal u v net) = [] := by
  have hmain : fetchOutcomeReal u v net = FetchOutcome.networkError := by
    rcases h with rfl | ⟨r, rfl, hok⟩
    · rfl
    · unfold fetchOutcomeReal fetchOutcome
      simp [hok]
  exact ⟨hmain, by rw [hmain]; rfl, by rw [hmain]; rfl⟩

/-- Witness for C7: a transport failure produces the network-error outcome
with the error status and an empty list view. -/
theorem network_failure_resets_view_witness :
    fetchOutcomeReal 0 0 none = FetchOutcome.networkError
    ∧ outcomeStatus (fetchOutcomeReal 0 0 none)
        = "Error contacting map server. Check internet and try again."
    ∧ outcomeList (fetchOutcomeReal 0 0 none) = [] :=
  network_failure_resets_view 0 0 none (Or.inl rfl)

/-- **C8, counterexample.** A candidate *with* a name tag does not always
use the tag's value: the empty string is falsy in JavaScript, so a feature
whose name tag is `""` is displayed with the placeholder instead of with the
tag's value. -/
theorem name_tag_value_counterexample :
    (⟨"node", some 1, some 2, none, some ⟨some ""⟩⟩ : Element).tags = some ⟨some ""⟩
    ∧ resolveName ⟨"node", some 1, some 2, none, some ⟨some ""⟩⟩ ≠ ""
    ∧ resolveName ⟨"node", some 1, some 2, none, some ⟨some ""⟩⟩
        = "Unnamed hotel (OpenStreetMap)" := by
  refine ⟨rfl, ?_, rfl⟩
  decide

/-- **C8, amended.** A candidate whose feature has no name tag — or whose
name tag is the empty string — gets the fixed placeholder
`"Unnamed hotel (OpenStreetMap)"` as display name; a candidate with a
nonempty name tag uses the tag's value.  Every name line rendered into the
list view is the resolved name of some element of the response, so unnamed
candidates are rendered with the placeholder. -/
theorem name_resolution_amended :
    (∀ el : Element,
      (el.tags = none ∨ el.tags = some ⟨none⟩ ∨ el.tags = some ⟨some ""⟩) →
        resolveName el = "Unnamed hotel (OpenStreetMap)")
    ∧ (∀ (el : Element) (t : Tags) (s : String),
        el.tags = some t → t.name = some s → s ≠ "" → resolveName el = s)
    ∧ (∀ (u v : ℝ) (l : List Element) (s : String),
        s ∈ renderHotels (fetchHotelsReal u v l) → ∃ el ∈ l, s = resolveName el) := by
  refine ⟨?_, ?_, ?_⟩
  · intro el h
    rcases h with h | h | h <;> simp [resolveName, h, placeholderName]
  · intro el t s ht hn hs
    simp [resolveName, ht, hn, hs]
  · intro u v l s hs
    unfold renderHotels at hs
    rcases List.mem_map.mp hs with ⟨h, hm, rfl⟩
    rcases mem_ranked_name (realDist u v) l h hm with ⟨el, hel, hname⟩
    exact ⟨el, hel, hname⟩

/-- Witness for C8's amended claim: a tagless feature gets the placeholder,
a feature named "Ritz" keeps its name, and the single name line rendered for
a one-element response is the resolved name of that element. -/
theorem name_resolution_amended_witness :
    resolveName ⟨"node", some 1, some 2, none, none⟩ = "Unnamed hotel (OpenStreetMap)"
    ∧ resolveName ⟨"node", some 1, some 2, none, some ⟨some "Ritz"⟩⟩ = "Ritz"
    ∧ ∃ el ∈ [(⟨"node", some 1, some 2, none, none⟩ : Element)],
        "Unnamed hotel (OpenStreetMap)" = resolveName el := by
  refine ⟨?_, ?_, ?_⟩
  · exact name_resolution_amended.1 ⟨"node", some 1, some 2, none, none⟩ (Or.inl rfl)
  · exact name_resolution_amended.2.1 ⟨"node", some 1, some 2, none, some ⟨some "Ritz"⟩⟩
      ⟨some "Ritz"⟩ "Ritz" rfl rfl (by decide)
  · refine name_resolution_amended.2.2 0 0 [⟨"node", some 1, some 2, none, none⟩]
      "Unnamed hotel (OpenStreetMap)" ?_
    have hres : resolveCoord ⟨"node", some 1, some 2, none, none⟩ = some (1, 2) := by decide
    unfold fetchHotelsReal fetchHotelsRanked parseElements renderHotels
    rw [List.filterMap_cons_some (by rw [hres]; rfl)]
    simp [rankResults, resolveName, placeholderName]

/-- **C6.** In the search state machine, the control is disabled only during
the `acquiringLocation` and `searching` phases and every terminal snapshot
has it re-enabled; on a geolocation denial the trace ends re-enabled with
the denial status, and no snapshot of the trace has issued a network
query. -/
theorem search_control_state_machine (g : GeoResult) (net : Option Response) :
    (∀ s ∈ searchTrace g net, s.btnDisabled = true →
      (s.phase = Phase.acquiringLocation ∨ s.phase = Phase.searching))
    ∧ (∀ s ∈ searchTrace g net, s.phase.isTerminal = true → s.btnDisabled = false)
    ∧ (g = GeoResult.denied →
        searchTrace g net
          = [idleState,
             { phase := Phase.acquiringLocation, status := "Getting your location…",
               btnDisabled := true, queryIssued := false },
             { phase := Phase.locationError,
               status := "Location permission denied or unavailable. Please enable location and try again.",
               btnDisabled := false, queryIssued := false }]
        ∧ (searchTrace g net).map UIState.queryIssued = [false, false, false]) := by
  cases g with
  | unsupported =>
      refine ⟨?_, ?_, ?_⟩
      · intro s hs hd
        rcases hs with _ | ⟨_, hs⟩
        · cases hd
        · rcases hs with _ | ⟨_, hs⟩
          · cases hd
          · cases hs
      · intro s hs _
        rcases hs with _ | ⟨_, hs⟩
        · rfl
        · rcases hs with _ | ⟨_, hs⟩
          · rfl
          · cases hs
      · intro h
        cases h
  | denied =>
      refine ⟨?_, ?_, fun _ => ⟨rfl, rfl⟩⟩
      · intro s hs hd
        rcases hs with _ | ⟨_, hs⟩
        · cases hd
        · rcases hs with _ | ⟨_, hs⟩
          · exact Or.inl rfl
          · rcases hs with _ | ⟨_, hs⟩
            · cases hd
            · cases hs
      · intro s hs hterm
        rcases hs with _ | ⟨_, hs⟩
        · rfl
        · rcases hs with _ | ⟨_, hs⟩
          · exact absurd hterm (by decide)
          · rcases hs with _ | ⟨_, hs⟩
            · rfl
            · cases hs
  | success lat lon =>
      refine ⟨?_, ?_, ?_⟩
      · intro s hs hd
        rcases hs with _ | ⟨_, hs⟩
        · cases hd
        · rcases hs with _ | ⟨_, hs⟩
          · exact Or.inl rfl
          · rcases hs with _ | ⟨_, hs⟩
            · exact Or.inr rfl
            · rcases hs with _ | ⟨_, hs⟩
              · cases hd
              · cases hs
      · intro s hs hterm
        rcases hs with _ | ⟨_, hs⟩
        · rfl
        · rcases hs with _ | ⟨_, hs⟩
          · exact absurd hterm (by decide)
          · rcases hs with _ | ⟨_, hs⟩
            · exact absurd hterm (by decide)
            · rcases hs with _ | ⟨_, hs⟩
              · rfl
              · cases hs
      · intro h
        cases h

/-- Witness for C6 at the denial input: the concrete trace and the fact that
no snapshot has issued a query. -/
theorem search_control_state_machine_witness :
    searchTrace GeoResult.denied none
      = [idleState,
         { phase := Phase.acquiringLocation, status := "Getting your location…",
           btnDisabled := true, queryIssued := false },
         { phase := Phase.locationError,
           status := "Location permission denied or unavailable. Please enable location and try again.",
           btnDisabled := false, queryIssued := false }]
    ∧ (searchTrace GeoResult.denied none).map UIState.queryIssued = [false, false, false] :=
  (search_control_state_machine GeoResult.denied none).2.2 rfl

/-- **C10.** The success callback runs `initMap` — which leaves the
result-marker layer empty, clearing any markers of a previous search —
before `fetchHotels` issues the network query; consequently a search that
ends in a network error or with zero results leaves the marker layer empty,
whatever markers any earlier search had plotted. -/
theorem marker_layer_cleared (s : MapState) (lat lon : ℚ) (net : Option Response) :
    (initMap lat lon s).hotelsLayer = some []
    ∧ ((fetchOutcomeReal ((lat : ℝ)) ((lon : ℝ)) net = FetchOutcome.networkError
        ∨ fetchOutcomeReal ((lat : ℝ)) ((lon : ℝ)) net = FetchOutcome.noResults) →
      (runSearchMap (GeoResult.success lat lon) net s).hotelsLayer = some []) := by
  have hinit : (initMap lat lon s).hotelsLayer = some [] := by
    unfold initMap
    cases s.hotelsLayer <;> rfl
  refine ⟨hinit, ?_⟩
  intro h
  have key : ∀ o : FetchOutcome ℝ,
      (o = FetchOutcome.networkError ∨ o = FetchOutcome.noResults) →
      (match o with
       | FetchOutcome.found top _ => plotHotelsOnMap top (initMap lat lon s)
       | _ => initMap lat lon s).hotelsLayer = some [] := by
    intro o ho
    rcases ho with rfl | rfl <;> exact hinit
  exact key _ h

/-- Witness for C10: starting from a map state with a stale marker, a search
that hits a transport failure ends with an empty marker layer. -/
theorem marker_layer_cleared_witness :
    (initMap 1 1 ⟨true, some (1, 1), some [(2, 2)]⟩).hotelsLayer = some []
    ∧ (runSearchMap (GeoResult.success 1 1) none
        ⟨true, some (1, 1), some [(2, 2)]⟩).hotelsLayer = some [] := by
  have h := marker_layer_cleared ⟨true, some (1, 1), some [(2, 2)]⟩ 1 1 none
  exact ⟨h.1, h.2 (Or.inl rfl)⟩

end NearbyHotels
